import Mathlib

/-!
Shallow embedding of the repository's three scripts:

* `ticket_deflection.py`   — class `AgentSystem` (namespace `AgentSystem`);
* `examples/adaptive_dashboards.py` — class `DynamicContextualReportingSystem`
  (namespace `Reporting`);
* `examples/dependency_analyzer.py` — class `DynamicDependencyAnalyzer`
  (namespace `DepAnalyzer`).

The scripts call out to an external conversational-agent framework; every reply
produced by that framework (router replies, downstream chat replies, approval
replies) is a parameter of the embedding.  Wall-clock readings
(`datetime.datetime.now()`) are likewise parameters.  Console output (`print`)
is modelled as an explicit list of printed lines.

Python string primitives used by the scripts are modelled over the character
list of a Lean `String`: `pyIn` is Python's substring test `pat in s`,
`pyStrip` is `str.strip()`, `pyUpper`/`pyLower` are `str.upper()`/`str.lower()`
(ASCII case mapping, which covers every keyword the scripts test for).
-/

/-- `pyStarts pat s`: `pat` is an initial segment of `s`. -/
def pyStarts : List Char → List Char → Bool
  | [], _ => true
  | _ :: _, [] => false
  | p :: ps, c :: cs => p == c && pyStarts ps cs

/-- Substring occurrence on character lists. -/
def pyInChars (pat s : List Char) : Bool :=
  match s with
  | [] => pat.isEmpty
  | _ :: cs => pyStarts pat s || pyInChars pat cs

/-- Python's `pat in s` substring test. -/
def pyIn (pat s : String) : Bool := pyInChars pat.data s.data

/-- Python's `str.strip()`: remove leading and trailing whitespace. -/
def pyStrip (s : String) : String :=
  ⟨((s.data.dropWhile Char.isWhitespace).reverse.dropWhile Char.isWhitespace).reverse⟩

/-- Python's `str.upper()` (ASCII case mapping). -/
def pyUpper (s : String) : String := ⟨s.data.map Char.toUpper⟩

/-- Python's `str.lower()` (ASCII case mapping). -/
def pyLower (s : String) : String := ⟨s.data.map Char.toLower⟩

namespace AgentSystem

/-- Return value of `check_and_fetch_employee_status`. -/
structure EmployeeStatus where
  employee_id : String
  user_name : String
  department : String
deriving DecidableEq, Repr

/-- `AgentSystem.check_and_fetch_employee_status`. -/
def check_and_fetch_employee_status (employee_id : String) : EmployeeStatus :=
  { employee_id := employee_id
    user_name := "John Doe"
    department := "Sales" }

/-- `AgentSystem.update_vpn_table`. -/
def update_vpn_table (_employee_id _name _department : String) : Bool := true

/-- `AgentSystem.process_approval_request`.  The source sends `message` to the
approval agent via `initiate_chat` and reads `agent.last_message()["content"]`;
that reply content is the parameter `approvalReply`. -/
def process_approval_request (approvalReply : String) (_message : String) : String :=
  if pyIn "approved" (pyLower approvalReply) then "Approved" else "Rejected"

/-- `AgentSystem.send_approval_request`. -/
def send_approval_request (approvalReply : String) (employee_id : String) : String :=
  process_approval_request approvalReply ("Approval needed for VPN access: " ++ employee_id)

/-- `AgentSystem.send_approval_request_for_change`. -/
def send_approval_request_for_change (approvalReply : String) (request_title : String) : String :=
  process_approval_request approvalReply
    ("Approval needed for the following request: " ++ request_title)

/-- `AgentSystem.is_deployment_restricted`. -/
def is_deployment_restricted (_scheduled_change_time : String) : Bool := false

/-- `AgentSystem.create_jira_ticket`. -/
def create_jira_ticket (_request _team : String) : String := "CM_101"

/-- `AgentSystem.escalate_to_human_agent`: first component is the returned
ticket id, second component is the console output of the single `print`. -/
def escalate_to_human_agent (_request : String) : String × List String :=
  ("TICKET_101", ["Raised ticket with the human agent. Your ticket id is "])

/-- Replies of the two downstream chats in `route_and_resolve`
(`chat_result.chat_history[-1]['content']` of the VPN chat and of the
change-management chat), produced by the external LLM framework. -/
structure Handlers where
  vpnReply : String
  changeReply : String

/-- `AgentSystem.route_and_resolve`.  `routerReply` is the router agent's
`last_message()["content"]`.  Result: (returned string, console output). -/
def route_and_resolve (h : Handlers) (routerReply : String) (user_input : String) :
    String × List String :=
  let routing_path := pyUpper (pyStrip routerReply)
  if pyIn "human" (pyLower routing_path) then
    escalate_to_human_agent user_input
  else if pyIn "vpn" (pyLower routing_path) then
    (h.vpnReply, [])
  else if pyIn "change" (pyLower routing_path) then
    (h.changeReply, [])
  else
    ("Unable to determine the appropriate agent for your request.", [])

/-- `AgentSystem.process_request` delegates to `route_and_resolve`. -/
def process_request (h : Handlers) (routerReply : String) (request : String) :
    String × List String :=
  route_and_resolve h routerReply request

end AgentSystem

/-- C1: `route_and_resolve` strips and uppercases the router reply, then tests
in order whether the (re-lowercased) normalized path contains "human", "vpn",
"change"; it dispatches to the escalation / VPN / change-management handler on
the first match and otherwise returns the fixed could-not-route message. -/
theorem route_and_resolve_dispatch (h : AgentSystem.Handlers) (reply input : String) :
    (pyIn "human" (pyLower (pyUpper (pyStrip reply))) = true →
      AgentSystem.route_and_resolve h reply input = AgentSystem.escalate_to_human_agent input) ∧
    (pyIn "human" (pyLower (pyUpper (pyStrip reply))) = false →
      pyIn "vpn" (pyLower (pyUpper (pyStrip reply))) = true →
      AgentSystem.route_and_resolve h reply input = (h.vpnReply, [])) ∧
    (pyIn "human" (pyLower (pyUpper (pyStrip reply))) = false →
      pyIn "vpn" (pyLower (pyUpper (pyStrip reply))) = false →
      pyIn "change" (pyLower (pyUpper (pyStrip reply))) = true →
      AgentSystem.route_and_resolve h reply input = (h.changeReply, [])) ∧
    (pyIn "human" (pyLower (pyUpper (pyStrip reply))) = false →
      pyIn "vpn" (pyLower (pyUpper (pyStrip reply))) = false →
      pyIn "change" (pyLower (pyUpper (pyStrip reply))) = false →
      AgentSystem.route_and_resolve h reply input =
        ("Unable to determine the appropriate agent for your request.", [])) := by
  refine ⟨?_, ?_, ?_, ?_⟩ <;>
    intros <;> simp_all [AgentSystem.route_and_resolve]

/-- Closed instance of `route_and_resolve_dispatch`: a reply containing none of
the keywords yields the fixed could-not-route message. -/
theorem route_and_resolve_dispatch_witness :
    AgentSystem.route_and_resolve ⟨"V", "C"⟩ "Sorry, I cannot help with this" "req" =
      ("Unable to determine the appropriate agent for your request.", []) :=
  (route_and_resolve_dispatch ⟨"V", "C"⟩ "Sorry, I cannot help with this" "req").2.2.2
    (by decide) (by decide) (by decide)

/-- C2 counterexample: a router reply containing both "human" and "vpn" does
NOT return the VPN handler's output — the human branch wins and the escalation
ticket id is returned instead. -/
theorem route_vpn_keyword_cex :
    pyIn "vpn" (pyLower (pyUpper (pyStrip "Route to HUMAN agent for the VPN issue"))) = true ∧
    (AgentSystem.route_and_resolve ⟨"VPN_HANDLER_REPLY", "CM_HANDLER_REPLY"⟩
        "Route to HUMAN agent for the VPN issue" "req").1 ≠ "VPN_HANDLER_REPLY" ∧
    (AgentSystem.route_and_resolve ⟨"VPN_HANDLER_REPLY", "CM_HANDLER_REPLY"⟩
        "Route to HUMAN agent for the VPN issue" "req").1 = "TICKET_101" := by
  refine ⟨by decide, by decide, by decide⟩

/-- C2 amended: keyword dispatch with priority human > vpn > change — "vpn"
yields the VPN handler's output only when "human" is absent, and "change"
yields the change-management handler's output only when both "human" and
"vpn" are absent; "human" always yields the escalation ticket id. -/
theorem route_keyword_priority (h : AgentSystem.Handlers) (reply input : String) :
    (pyIn "human" (pyLower (pyUpper (pyStrip reply))) = true →
      (AgentSystem.route_and_resolve h reply input).1 = "TICKET_101") ∧
    (pyIn "human" (pyLower (pyUpper (pyStrip reply))) = false →
      pyIn "vpn" (pyLower (pyUpper (pyStrip reply))) = true →
      (AgentSystem.route_and_resolve h reply input).1 = h.vpnReply) ∧
    (pyIn "human" (pyLower (pyUpper (pyStrip reply))) = false →
      pyIn "vpn" (pyLower (pyUpper (pyStrip reply))) = false →
      pyIn "change" (pyLower (pyUpper (pyStrip reply))) = true →
      (AgentSystem.route_and_resolve h reply input).1 = h.changeReply) := by
  refine ⟨?_, ?_, ?_⟩ <;>
    intros <;> simp_all [AgentSystem.route_and_resolve, AgentSystem.escalate_to_human_agent]

/-- Closed instance of `route_keyword_priority`: a pure VPN routing reply
returns the VPN handler's output. -/
theorem route_keyword_priority_witness :
    (AgentSystem.route_and_resolve ⟨"VPN_OK", "CM_OK"⟩
        "Routing to VPN Agent. Completed" "q").1 = "VPN_OK" :=
  (route_keyword_priority ⟨"VPN_OK", "CM_OK"⟩ "Routing to VPN Agent. Completed" "q").2.1
    (by decide) (by decide)

/-- C7: `escalate_to_human_agent` returns the fixed ticket id "TICKET_101" and
prints exactly one console line; `route_and_resolve` produces that single line
as its only console output on the human-escalation path and prints nothing on
any other path. -/
theorem escalation_console_output (req : String) (h : AgentSystem.Handlers)
    (reply input : String) :
    AgentSystem.escalate_to_human_agent req =
      ("TICKET_101", ["Raised ticket with the human agent. Your ticket id is "]) ∧
    (AgentSystem.route_and_resolve h reply input).2 =
      (if pyIn "human" (pyLower (pyUpper (pyStrip reply))) then
        ["Raised ticket with the human agent. Your ticket id is "]
      else []) := by
  refine ⟨rfl, ?_⟩
  by_cases h1 : pyIn "human" (pyLower (pyUpper (pyStrip reply))) = true
  · simp [AgentSystem.route_and_resolve, AgentSystem.escalate_to_human_agent, h1]
  · simp only [AgentSystem.route_and_resolve, if_neg h1]
    split_ifs <;> rfl

/-- C8: the ticket-deflection mock tool functions are constants —
`check_and_fetch_employee_status` echoes the given employee id with user name
"John Doe" and department "Sales", `update_vpn_table` always returns `true`,
`is_deployment_restricted` always returns `false`, and `create_jira_ticket`
always returns "CM_101". -/
theorem mock_tools_constant :
    (∀ e, AgentSystem.check_and_fetch_employee_status e =
      { employee_id := e, user_name := "John Doe", department := "Sales" }) ∧
    (∀ e n d, AgentSystem.update_vpn_table e n d = true) ∧
    (∀ t, AgentSystem.is_deployment_restricted t = false) ∧
    (∀ r t, AgentSystem.create_jira_ticket r t = "CM_101") :=
  ⟨fun _ => rfl, fun _ _ _ => rfl, fun _ => rfl, fun _ _ => rfl⟩

/-- C10: `process_approval_request` returns "Approved" iff the approval
agent's reply contains "approved" after lowercasing, and "Rejected" otherwise;
`send_approval_request` and `send_approval_request_for_change` both reduce to
this same decision on their respective messages. -/
theorem process_approval_request_decision (reply msg : String) :
    (AgentSystem.process_approval_request reply msg = "Approved" ↔
      pyIn "approved" (pyLower reply) = true) ∧
    (AgentSystem.process_approval_request reply msg = "Rejected" ↔
      pyIn "approved" (pyLower reply) = false) ∧
    (∀ e, AgentSystem.send_approval_request reply e =
      AgentSystem.process_approval_request reply ("Approval needed for VPN access: " ++ e)) ∧
    (∀ t, AgentSystem.send_approval_request_for_change reply t =
      AgentSystem.process_approval_request reply
        ("Approval needed for the following request: " ++ t)) := by
  refine ⟨?_, ?_, fun _ => rfl, fun _ => rfl⟩ <;>
    cases hp : pyIn "approved" (pyLower reply) <;>
      simp [AgentSystem.process_approval_request, hp]
namespace Reporting

/-- One entry of the `user_contexts` table in `get_user_context`. -/
structure UserContext where
  role : String
  technical_level : String
  focus_areas : List String
  preferred_detail_level : String
  preferred_visualization : String
deriving DecidableEq, Repr

/-- `user_contexts["dev_team"]`. -/
def dev_team_context : UserContext :=
  { role := "developer"
    technical_level := "high"
    focus_areas := ["service_health", "error_rates", "deployment_impact"]
    preferred_detail_level := "detailed"
    preferred_visualization := "metrics_graphs" }

/-- `user_contexts["ops_team"]`. -/
def ops_team_context : UserContext :=
  { role := "operations"
    technical_level := "high"
    focus_areas := ["system_stability", "resource_utilization", "anomalies"]
    preferred_detail_level := "detailed"
    preferred_visualization := "metrics_with_logs" }

/-- `user_contexts["business"]`. -/
def business_context : UserContext :=
  { role := "product_management"
    technical_level := "medium"
    focus_areas := ["user_impact", "business_metrics", "summary_health"]
    preferred_detail_level := "summary"
    preferred_visualization := "business_impact_dashboard" }

/-- `user_contexts["executive"]`. -/
def executive_context : UserContext :=
  { role := "executive"
    technical_level := "low"
    focus_areas := ["business_impact", "critical_issues", "trends"]
    preferred_detail_level := "high_level"
    preferred_visualization := "status_summary" }

/-- `DynamicContextualReportingSystem.get_user_context`:
`user_contexts.get(user_id, user_contexts["dev_team"])`. -/
def get_user_context (user_id : String) : UserContext :=
  if user_id = "dev_team" then dev_team_context
  else if user_id = "ops_team" then ops_team_context
  else if user_id = "business" then business_context
  else if user_id = "executive" then executive_context
  else dev_team_context

/-- `DynamicContextualReportingSystem.fetch_metrics_data`: the nested literal
dictionary, as an association list of metric group → (series name → values). -/
def fetch_metrics_data (_metric_types : List String) (_timeframe : String) :
    List (String × List (String × List Rat)) :=
  [("cpu_utilization",
      [("service_a", [45, 48, 52, 49, 51]),
       ("service_b", [62, 65, 70, 72, 68])]),
   ("request_latency",
      [("api_gateway", [120, 125, 118, 130, 122]),
       ("payment_service", [85, 82, 180, 175, 90])]),
   ("error_rate",
      [("login_service", [0.02, 0.01, 0.01, 0.03, 0.01]),
       ("checkout_service", [0.01, 0.01, 0.04, 0.05, 0.02])]),
   ("business_metrics",
      [("conversion_rate", [3.2, 3.1, 2.8, 2.9, 3.4]),
       ("cart_abandonment", [24, 25, 28, 27, 23])])]

/-- One entry of `significant_changes` in `analyze_metric_trends`. -/
structure TrendChange where
  metric : String
  change : String
  timeframe : String
  current_value : Rat
  previous_value : Rat
  peak_value : Rat
deriving DecidableEq, Repr

/-- Return value of `analyze_metric_trends`. -/
structure TrendAnalysis where
  significant_changes : List TrendChange
  stable_metrics : List String
deriving DecidableEq, Repr

/-- `DynamicContextualReportingSystem.analyze_metric_trends`.  Source line 152
lacks the comma after `"+110%%"` (a syntax error in the original file);
embedded with the evidently intended comma. -/
def analyze_metric_trends (_metrics_data : List (String × List (String × List Rat))) :
    TrendAnalysis :=
  { significant_changes :=
      [{ metric := "payment_service.request_latency"
         change := "+110%%"
         timeframe := "2 days ago"
         current_value := 90
         previous_value := 85
         peak_value := 180 },
       { metric := "checkout_service.error_rate"
         change := "+400%%"
         timeframe := "3 days ago"
         current_value := 0.02
         previous_value := 0.01
         peak_value := 0.05 }]
    stable_metrics := ["cpu_utilization", "login_service.error_rate"] }

/-- One entry of the list returned by `identify_correlated_metrics`. -/
structure Correlation where
  metrics : List String
  correlation : Rat
  timeframe : String
  significance : String
deriving DecidableEq, Repr

/-- `DynamicContextualReportingSystem.identify_correlated_metrics`. -/
def identify_correlated_metrics (_metrics_data : List (String × List (String × List Rat))) :
    List Correlation :=
  [{ metrics := ["payment_service.request_latency", "checkout_service.error_rate"]
     correlation := 0.92
     timeframe := "last 5 days"
     significance := "high" },
   { metrics := ["payment_service.request_latency", "cart_abandonment"]
     correlation := 0.85
     timeframe := "last 5 days"
     significance := "high" }]

/-- `DynamicContextualReportingSystem.generate_visualizations`; the `data`
argument is never inspected by the source. -/
def generate_visualizations {α : Type} (_data : α) (visualization_type : String) : List String :=
  if visualization_type = "metrics_graphs" then
    ["Line chart showing payment_service latency spike correlating with checkout error rate increase",
     "Heat map of service dependencies highlighting the payment service connection strain"]
  else if visualization_type = "business_impact_dashboard" then
    ["Conversion funnel showing 12% drop at payment step during incident period",
     "Revenue impact estimation chart: \\$15,000 lost during 2-hour incident window"]
  else if visualization_type = "status_summary" then
    ["System health scorecard: 3 services degraded, 18 healthy",
     "Business impact summary: Medium severity on checkout flow, no impact on browsing"]
  else []

/-- One entry of `previous_incidents` in `retrieve_historical_context`. -/
structure PastIncident where
  date : String
  peak_value : Rat
  duration_hours : Rat
  root_cause : String
  resolution : String
deriving DecidableEq, Repr

/-- Per-metric entry of the dictionary returned by `retrieve_historical_context`. -/
structure MetricHistory where
  baseline : Rat
  p95_normal : Rat
  previous_incidents : List PastIncident
deriving DecidableEq, Repr

/-- `DynamicContextualReportingSystem.retrieve_historical_context`. -/
def retrieve_historical_context (_metrics : List String) (_timeframe : String) :
    List (String × MetricHistory) :=
  [("payment_service.request_latency",
      { baseline := 85
        p95_normal := 110
        previous_incidents :=
          [{ date := "2023-04-15"
             peak_value := 195
             duration_hours := 1.5
             root_cause := "Database connection pool exhaustion"
             resolution := "Increased connection pool size and implemented connection timeout" }] }),
   ("checkout_service.error_rate",
      { baseline := 0.01
        p95_normal := 0.03
        previous_incidents :=
          [{ date := "2023-05-22"
             peak_value := 0.08
             duration_hours := 2.2
             root_cause := "Payment gateway timeout setting too low"
             resolution := "Increased timeout and added circuit breaker" }] })]

/-- A service of the topology returned by `fetch_topology_data`. -/
structure ServiceNode where
  id : String
  type : String
deriving DecidableEq, Repr

/-- A dependency edge of the topology returned by `fetch_topology_data`. -/
structure DependencyEdge where
  source : String
  target : String
deriving DecidableEq, Repr

/-- An entry of `recent_changes` returned by `fetch_topology_data`. -/
structure RecentChange where
  service : String
  type : String
  version : String
  timestamp : String
deriving DecidableEq, Repr

/-- Return value of `fetch_topology_data`. -/
structure Topology where
  services : List ServiceNode
  dependencies : List DependencyEdge
  recent_changes : List RecentChange
deriving DecidableEq, Repr

/-- `DynamicContextualReportingSystem.fetch_topology_data`. -/
def fetch_topology_data : Topology :=
  { services :=
      [{ id := "web_ui", type := "frontend" },
       { id := "api_gateway", type := "gateway" },
       { id := "user_service", type := "microservice" },
       { id := "catalog_service", type := "microservice" },
       { id := "checkout_service", type := "microservice" },
       { id := "payment_service", type := "microservice" },
       { id := "inventory_service", type := "microservice" }]
    dependencies :=
      [{ source := "web_ui", target := "api_gateway" },
       { source := "api_gateway", target := "user_service" },
       { source := "api_gateway", target := "catalog_service" },
       { source := "api_gateway", target := "checkout_service" },
       { source := "checkout_service", target := "payment_service" },
       { source := "checkout_service", target := "inventory_service" },
       { source := "payment_service", target := "user_service" }]
    recent_changes :=
      [{ service := "payment_service", type := "deployment", version := "2.3.5",
         timestamp := "2023-06-14T18:30:00Z" }] }

/-- One log record of the adaptive-dashboards `fetch_logs_data`. -/
structure LogEntry where
  timestamp : String
  service : String
  level : String
  message : String
deriving DecidableEq, Repr

/-- The local `sample_logs` literal of `fetch_logs_data`. -/
def sample_logs : List LogEntry :=
  [{ timestamp := "2023-06-15T10:22:15Z", service := "payment_service", level := "ERROR",
     message := "Connection timeout to payment gateway" },
   { timestamp := "2023-06-15T10:22:18Z", service := "payment_service", level := "WARN",
     message := "Retrying payment gateway connection (attempt 1)" },
   { timestamp := "2023-06-15T10:22:25Z", service := "payment_service", level := "WARN",
     message := "Retrying payment gateway connection (attempt 2)" },
   { timestamp := "2023-06-15T10:22:35Z", service := "payment_service", level := "ERROR",
     message := "Payment gateway connection failed after retries" },
   { timestamp := "2023-06-15T10:22:36Z", service := "checkout_service", level := "ERROR",
     message := "Payment processing failed: timeout" }]

/-- `DynamicContextualReportingSystem.fetch_logs_data`.  `filter_terms` defaults
to `None`; the source guard `if filter_terms:` is Python truthiness, false for
both `None` and the empty list. -/
def fetch_logs_data (_services : List String) (_timeframe : String)
    (filter_terms : Option (List String)) : List LogEntry :=
  match filter_terms with
  | some (t :: ts) =>
      sample_logs.filter fun log =>
        (t :: ts).any fun term => pyIn (pyLower term) (pyLower log.message)
  | _ => sample_logs

end Reporting
namespace Reporting

/-- The `request_info` dictionary consumed by `create_contextual_report`; each
key may be absent (`dict.get` with a default). -/
structure RequestInfo where
  user_role : Option String
  report_type : Option String
  timeframe : Option String
  focus_areas : Option (List String)
deriving DecidableEq, Repr

/-- One record of `self.report_history`.  The `datetime.datetime.now()` reading
stored in the record is the embedding parameter `iso`. -/
structure HistEntry where
  report_id : Nat
  timestamp : String
  user_role : String
  request_info : RequestInfo
deriving DecidableEq, Repr

/-- A value of the `current_values` dictionary in the report: either a metric
series or the `"N/A"` default of the double `dict.get`. -/
inductive MetricValue where
  | series : List Rat → MetricValue
  | na : MetricValue
deriving DecidableEq, Repr

/-- Python's `str.split(sep)` on character lists. -/
def pySplitChars (sep : Char) : List Char → List (List Char)
  | [] => [[]]
  | x :: xs =>
      match pySplitChars sep xs with
      | [] => [[]]
      | y :: ys => if x = sep then [] :: y :: ys else (x :: y) :: ys

/-- Python's `str.split(sep)` for a one-character separator. -/
def pySplit (sep : Char) (s : String) : List String :=
  (pySplitChars sep s.data).map fun cs => ⟨cs⟩

/-- `metrics_data.get(k.split(".")[0], {}).get(k.split(".")[1], "N/A")`.  Every
key reaching this lookup comes from `significant_changes` and contains a dot. -/
def metricCurrentValue (metrics_data : List (String × List (String × List Rat)))
    (k : String) : MetricValue :=
  let parts := pySplit '.' k
  match metrics_data.lookup (parts.getD 0 "") with
  | some sub =>
      match sub.lookup (parts.getD 1 "") with
      | some v => .series v
      | none => .na
  | none => .na

/-- The report dictionary built by `create_contextual_report`. -/
structure Report where
  title : String
  generated_for : String
  narrative : String
  visualizations : List String
  key_metrics_highlighted : List String
  key_metrics_current_values : List (String × MetricValue)
  timestamp : String
deriving DecidableEq, Repr
/-- The multi-line `narrative` literal assigned in the `user_role == "executive"`
branch of `create_contextual_report` (source lines 430-498). -/
def executive_narrative : String :=
  String.intercalate "\n" [
    "",
    "                    ## Executive System Status Report",
    "",
    "                    ### System Health Summary",
    "                    - Overall system health is DEGRADED due to payment processing issues",
    "                    - Business Impact: MEDIUM (estimated $15,000 revenue impact over 2 hours)",
    "                    - 3 of 21 critical services showing performance degradation",
    "                    - Issue contained to checkout flow; browsing and account functions unaffected",
    "",
    "                    ### Key Insights",
    "                    - Payment processing latency increased 110% over baseline following yesterdays deployment",
    "                    - This correlates strongly with a 5% increase in cart abandonment rate",
    "                    - Technical teams have identified the cause and implemented a fix",
    "                    - System is now recovering with metrics trending toward normal levels",
    "",
    "                    ### Recommendations",
    "                    - Monitor conversion rates closely over next 24 hours",
    "                    - Consider extending current promotion by 1 day to recover lost sales",
    "                    ",
    "                    ## Operations Status Report",
    "",
    "                    ### Current System State",
    "                    - Payment service showing 110% latency increase (now recovering)",
    "                    - Checkout error rate peaked at 5% (4x normal), now at 2% and declining",
    "                    - Root cause: Connection pool exhaustion in payment service following v2.3.5 deployment",
    "                    - Fix implemented: Connection pool size increased and leak fixed in payment gateway client",
    "",
    "                    ### Correlation Analysis",
    "                    - Strong correlation (0.92) between payment latency and checkout errors",
    "                    - Payment service deployment at 18:30 yesterday directly preceded metric degradation",
    "                    - Similar pattern to April 15th incident (see historical reference)",
    "",
    "                    ### Action Items",
    "                    - Monitor connection pool metrics for next 24 hours",
    "                    - Implement permanent fix in next release (scheduled June 20)",
    "                    - Add connection pool monitoring alerts at 70% threshold",
    "                    - Update runbook with new recovery procedure",
    "                    ",
    "                    ## Development Team System Report",
    "",
    "                    ### Service Health",
    "                    - **Payment Service**: Degraded performance (latency +110%, now recovering)",
    "                      - Connection pool exhaustion following deployment of v2.3.5",
    "                      - Peak latency of 180ms vs. baseline of 85ms",
    "                      - Error logs show payment gateway connection timeouts",
    "                      - Connection pool usage peaked at 98% before resolution",
    "",
    "                    - **Checkout Service**: Secondary impact",
    "                      - Error rate increased to 5% (baseline: 1%)",
    "                      - Errors directly correlated with payment service latency",
    "                      - No code issues in checkout service itself",
    "",
    "                    ### Deployment Impact Analysis",
    "                    - Deployment of payment-service:2.3.5 at 2023-06-14T18:30:00Z",
    "                      - Changes included payment gateway client update and connection pooling changes",
    "                      - Metrics degradation began 22 minutes after deployment",
    "                      - Similar connection issues observed in staging but at lower volume",
    "",
    "                    ### Technical Details",
    "                    - Connection leak found in PaymentGatewayClient.processPayment() method",
    "                      - Connection was not being released in exception code path",
    "                      - Fix implemented: Added try-with-resources pattern",
    "                      - PR #3245 contains the fix (merged to main)",
    "",
    "                    ### Recommendations",
    "                    - Add unit tests for connection release in error scenarios",
    "                    - Implement connection pool monitoring in metrics dashboard",
    "                    - Review similar connection patterns in other services",
    "            "]
/-- `DynamicContextualReportingSystem.create_contextual_report`.  The two
`datetime.datetime.now()` readings are the parameters `today` (the
`strftime("%Y-%m-%d")` date used in the title) and `iso` (the `isoformat()`
timestamp; the raw datetime stored in the history record is modelled by the
same parameter).  The source reads the local variable `narrative` when
building the report, but `narrative` is only assigned under the
`user_role == "executive"` branch; for every other role the construction
raises `UnboundLocalError` before anything is appended to `report_history` —
modelled as `none`.  On success the result pairs the report with the updated
history list. -/
def create_contextual_report (today iso : String) (request_info : RequestInfo)
    (report_history : List HistEntry) : Option (Report × List HistEntry) :=
  let user_role := request_info.user_role.getD "dev_team"
  let _report_type := request_info.report_type.getD "status"
  let timeframe := request_info.timeframe.getD "last_24h"
  let focus_areas := request_info.focus_areas.getD ["service_health"]
  let user_context := get_user_context user_role
  let metrics_data := fetch_metrics_data focus_areas timeframe
  let trends := analyze_metric_trends metrics_data
  let correlations := identify_correlated_metrics metrics_data
  let key_metrics := trends.significant_changes.map (·.metric)
  let _historical_context :=
    if key_metrics.isEmpty then none
    else some (retrieve_historical_context key_metrics "last_3_months")
  let _topology := if focus_areas.contains "dependencies" then some fetch_topology_data else none
  let visualizations :=
    generate_visualizations (metrics_data, trends, correlations)
      user_context.preferred_visualization
  if user_role = "executive" then
    let narrative := executive_narrative
    let report : Report :=
      { title := "System Status Report - " ++ today
        generated_for := user_role
        narrative := narrative
        visualizations := visualizations
        key_metrics_highlighted := key_metrics
        key_metrics_current_values :=
          if key_metrics.isEmpty then []
          else key_metrics.map fun k => (k, metricCurrentValue metrics_data k)
        timestamp := iso }
    some (report,
      report_history ++
        [{ report_id := report_history.length + 1
           timestamp := iso
           user_role := user_role
           request_info := request_info }])
  else
    none

/-- The keyword simulation in `process_report_request` that builds
`request_info` from the request text. -/
def build_request_info (request : String) : RequestInfo :=
  let lower := pyLower request
  let base : RequestInfo :=
    if pyIn "executive" lower || pyIn "business" lower then
      { user_role := some "executive"
        report_type := some "status"
        timeframe := some "last_24h"
        focus_areas := some ["business_metrics", "critical_issues"] }
    else if pyIn "operations" lower || pyIn "ops" lower then
      { user_role := some "ops_team"
        report_type := some "status"
        timeframe := some "last_24h"
        focus_areas := some ["system_stability", "anomalies"] }
    else
      { user_role := some "dev_team"
        report_type := some "status"
        timeframe := some "last_24h"
        focus_areas := some ["service_health", "deployment_impact"] }
  let fa0 := base.focus_areas.getD []
  let fa1 := if pyIn "performance" lower then fa0 ++ ["performance"] else fa0
  let fa2 := if pyIn "errors" lower then fa1 ++ ["error_rates"] else fa1
  let fa3 := if pyIn "business" lower then fa2 ++ ["business_metrics"] else fa2
  { base with focus_areas := some fa3 }

/-- The final f-string of `process_report_request` (`chr(10)` is a newline). -/
def format_report (r : Report) : String :=
  "\n        # " ++ r.title ++ "\n        Generated for: " ++ r.generated_for ++
    " role\n\n        " ++ r.narrative ++ "\n\n        ## Visualizations\n        " ++
    (if r.visualizations.isEmpty then "No visualizations generated"
     else "- " ++ "\n" ++ String.intercalate "- " r.visualizations) ++
    "\n\n        Report complete.\n        "

/-- `DynamicContextualReportingSystem.process_report_request`: builds the
request info from keywords, generates the contextual report and formats it;
`none` propagates the `UnboundLocalError` of `create_contextual_report`. -/
def process_report_request (today iso : String) (request : String)
    (report_history : List HistEntry) : Option (String × List HistEntry) :=
  match create_contextual_report today iso (build_request_info request) report_history with
  | some (r, h) => some (format_report r, h)
  | none => none

/-- The effect of one `create_contextual_report` call on `self.report_history`
(a raised exception leaves the history unchanged). -/
def reportStep (today iso : String) (hist : List HistEntry) (request_info : RequestInfo) :
    List HistEntry :=
  match create_contextual_report today iso request_info hist with
  | some (_, h) => h
  | none => hist

/-- `self.report_history` after a sequence of `create_contextual_report` calls,
starting from the empty list set up by `__init__`. -/
def runReports (today iso : String) (reqs : List RequestInfo) : List HistEntry :=
  reqs.foldl (reportStep today iso) []

end Reporting
namespace DepAnalyzer

/-- `DynamicDependencyAnalyzer.fetch_metrics_data`: per-service metric
dictionary, as an association list (`services` defaults to `None`). -/
def fetch_metrics_data (_services : Option (List String)) :
    List (String × List (String × Rat)) :=
  [("inventory",
      [("latency_p95", 250), ("error_rate", 0.02), ("request_rate", 320),
       ("cpu_usage", 0.75), ("memory_usage", 0.82), ("db_connections", 95),
       ("db_connection_limit", 100)]),
   ("payment",
      [("latency_p95", 120), ("error_rate", 0.005), ("request_rate", 175)]),
   ("checkout",
      [("latency_p95", 450), ("error_rate", 0.01), ("request_rate", 250)])]

/-- An anomaly record inside a dependency-health entry. -/
structure Anomaly where
  type : String
  description : String
  severity : String
deriving DecidableEq, Repr

/-- One dependency entry of `analyze_dependency_health`; the `anomalies` key is
absent (`none`) for the healthy entry. -/
structure DepHealth where
  service_id : String
  health : String
  latency_trend : String
  error_rate_trend : String
  anomalies : Option (List Anomaly)
deriving DecidableEq, Repr

/-- Return value of `analyze_dependency_health`. -/
structure HealthAnalysis where
  service_id : String
  dependencies : List DepHealth
deriving DecidableEq, Repr

/-- The literal analysis returned by `analyze_dependency_health` for the
checkout service. -/
def checkout_health_analysis : HealthAnalysis :=
  { service_id := "checkout"
    dependencies :=
      [{ service_id := "payment"
         health := "healthy"
         latency_trend := "stable"
         error_rate_trend := "stable"
         anomalies := none },
       { service_id := "inventory"
         health := "degraded"
         latency_trend := "increasing"
         error_rate_trend := "stable"
         anomalies := some
           [{ type := "resource_saturation"
              description := "DB connection pool nearing capacity (95%)"
              severity := "high" }] }] }

/-- `DynamicDependencyAnalyzer.analyze_dependency_health`. -/
def analyze_dependency_health (service_id : String) : HealthAnalysis :=
  if service_id = "checkout" then checkout_health_analysis
  else { service_id := service_id, dependencies := [] }

/-- One log record of the dependency analyzer's `fetch_logs_data`. -/
structure LogEntry where
  timestamp : String
  level : String
  message : String
deriving DecidableEq, Repr

/-- The literal log list returned by `fetch_logs_data` for the inventory
service. -/
def inventory_logs : List LogEntry :=
  [{ timestamp := "2023-06-15T14:10:02Z", level := "WARN",
     message := "High database connection count (90/100)" },
   { timestamp := "2023-06-15T14:15:22Z", level := "ERROR",
     message := "Connection leak detected in validateInventory method" },
   { timestamp := "2023-06-15T14:18:45Z", level := "WARN",
     message := "High database connection count (93/100)" },
   { timestamp := "2023-06-15T14:20:12Z", level := "WARN",
     message := "High database connection count (95/100)" }]

/-- `DynamicDependencyAnalyzer.fetch_logs_data`. -/
def fetch_logs_data (service_id : String) (_time_range_minutes : Nat) : List LogEntry :=
  if service_id = "inventory" then inventory_logs else []

/-- The `issue_info` dictionary passed to `analyze_root_cause`. -/
structure IssueInfo where
  service : String
  issue : String
  severity : String
deriving DecidableEq, Repr

/-- A recommendation record of `analyze_root_cause`; the `expected_impact` and
`evidence` keys each appear on only one of the two literal entries. -/
structure Recommendation where
  type : String
  action : String
  expected_impact : Option String
  evidence : Option String
deriving DecidableEq, Repr

/-- Return value of `analyze_root_cause`. -/
structure RootCauseAnalysis where
  source_service : String
  symptom : String
  root_cause_service : String
  root_cause : String
  evidence : List String
  recommendations : List Recommendation
deriving DecidableEq, Repr

/-- `DynamicDependencyAnalyzer.analyze_root_cause`. -/
def analyze_root_cause (_issue_info : IssueInfo) : RootCauseAnalysis :=
  { source_service := "checkout"
    symptom := "Increased latency (P95: 450ms)"
    root_cause_service := "inventory"
    root_cause := "Database connection pool saturation in inventory service"
    evidence :=
      ["Inventory service showing 95/100 active DB connections",
       "Logs indicate connection leak in validateInventory method",
       "Latency increase correlates with deployment of inventory service v2.3.1 (2 hours ago)",
       "Traces show inventory.verify_stock operation taking 320-480ms (baseline: 150ms)"]
    recommendations :=
      [{ type := "immediate"
         action := "Increase DB connection pool size in inventory service from 100 to 150"
         expected_impact := some "Alleviate immediate pressure and reduce latency"
         evidence := none },
       { type := "fix"
         action := "Fix connection leak in validateInventory method"
         expected_impact := none
         evidence := some "Log entries showing connection leak warnings" }] }
/-- The literal analysis text returned for checkout-latency requests
(the f-string of `process_analysis_request` contains no placeholders). -/
def analysis_response : String :=
  String.intercalate "\n" [
    "",
    "                Analysis Complete:",
    "",
    "                The increased latency in the checkout service (currently P95: 450ms) is being caused by a bottleneck in the inventory service.",
    "",
    "                Root Cause:",
    "                - The inventory service\x27s database connection pool is nearly saturated (95/100 connections in use)",
    "                - Logs show evidence of a connection leak in the validateInventory method",
    "                - This issue began following the deployment of inventory service v2.3.1 approximately 2 hours ago",
    "",
    "                Impact:",
    "                - Checkout operations are experiencing ~60% higher latency than normal",
    "                - This is affecting approximately 250 requests per minute",
    "                - No significant increase in error rates observed yet, but risk is high if connections continue to increase",
    "",
    "                Recommendations:",
    "                1. Immediate: Increase the DB connection pool size from 100 to 150 to alleviate pressure",
    "                2. Fix: Resolve the connection leak in the validateInventory method in inventory service",
    "                3. Long-term: Implement connection usage monitoring with alerts at 80% threshold",
    "",
    "                Analysis complete.",
    "                "]
/-- `DynamicDependencyAnalyzer.process_analysis_request`: the orchestrator chat
is pure external interaction; the returned text depends only on the request
keywords.  The root-cause analysis is computed and then never referenced by
the returned text, exactly as in the source. -/
def process_analysis_request (request : String) : String :=
  if pyIn "checkout" (pyLower request) && pyIn "latency" (pyLower request) then
    let _root_cause := analyze_root_cause
      { service := "checkout", issue := "latency", severity := "medium" }
    analysis_response
  else
    "Could not determine the appropriate analysis path for this request."

end DepAnalyzer
/-- C3 counterexample: mock data functions are not argument-independent — the
user-context lookup, the adaptive log fetch with a filter, the dependency
health analysis and the dependency log fetch each return different values for
different arguments. -/
theorem mock_data_arg_dependent_cex :
    Reporting.get_user_context "executive" ≠ Reporting.get_user_context "dev_team" ∧
    Reporting.fetch_logs_data [] "last_24h" (some ["timeout"]) ≠
      Reporting.fetch_logs_data [] "last_24h" none ∧
    DepAnalyzer.analyze_dependency_health "checkout" ≠
      DepAnalyzer.analyze_dependency_health "payment" ∧
    DepAnalyzer.fetch_logs_data "inventory" 15 ≠ DepAnalyzer.fetch_logs_data "payment" 15 := by
  refine ⟨by decide, by decide, by decide, by decide⟩

/-- C3 amended: every mock data function returns literal hardcoded structures,
but four of them select or filter those literals by their arguments:
the adaptive `fetch_logs_data` filters its sample logs by `filter_terms`,
`get_user_context` selects among four literal contexts (defaulting to
dev_team), `analyze_dependency_health` returns its literal checkout analysis
only for "checkout" and an empty-dependencies record echoing the service id
otherwise, and the dependency analyzer's `fetch_logs_data` returns its literal
inventory logs only for "inventory" and an empty list otherwise; functions
without branches (e.g. both `fetch_metrics_data`) are argument-independent. -/
theorem mock_data_characterization :
    (∀ mt tf, Reporting.fetch_metrics_data mt tf = Reporting.fetch_metrics_data [] "") ∧
    (∀ sv tf, Reporting.fetch_logs_data sv tf none = Reporting.sample_logs) ∧
    (∀ sv tf ts, ts ≠ [] → Reporting.fetch_logs_data sv tf (some ts) =
      Reporting.sample_logs.filter fun log =>
        ts.any fun term => pyIn (pyLower term) (pyLower log.message)) ∧
    (∀ u, u ≠ "dev_team" → u ≠ "ops_team" → u ≠ "business" → u ≠ "executive" →
      Reporting.get_user_context u = Reporting.dev_team_context) ∧
    (∀ s, s ≠ "checkout" →
      DepAnalyzer.analyze_dependency_health s = { service_id := s, dependencies := [] }) ∧
    (DepAnalyzer.analyze_dependency_health "checkout" = DepAnalyzer.checkout_health_analysis) ∧
    (∀ s t, s ≠ "inventory" → DepAnalyzer.fetch_logs_data s t = []) ∧
    (∀ t, DepAnalyzer.fetch_logs_data "inventory" t = DepAnalyzer.inventory_logs) ∧
    (∀ s, DepAnalyzer.fetch_metrics_data s = DepAnalyzer.fetch_metrics_data none) := by
  refine ⟨fun _ _ => rfl, fun _ _ => rfl, ?_, ?_, ?_, rfl, ?_, fun _ => rfl, fun _ => rfl⟩
  · intro sv tf ts hts
    cases ts with
    | nil => exact absurd rfl hts
    | cons a as => rfl
  · intro u h1 h2 h3 h4
    simp [Reporting.get_user_context, h1, h2, h3, h4]
  · intro s hs
    simp [DepAnalyzer.analyze_dependency_health, hs]
  · intro s t hs
    simp [DepAnalyzer.fetch_logs_data, hs]

/-- Closed instance of `mock_data_characterization` discharging each kind of
hypothesis at concrete inputs. -/
theorem mock_data_characterization_witness :
    (Reporting.fetch_logs_data [] "last_24h" (some ["timeout"]) =
      Reporting.sample_logs.filter fun log =>
        ["timeout"].any fun term => pyIn (pyLower term) (pyLower log.message)) ∧
    Reporting.get_user_context "guest_7" = Reporting.dev_team_context ∧
    DepAnalyzer.analyze_dependency_health "payment" =
      { service_id := "payment", dependencies := [] } ∧
    DepAnalyzer.fetch_logs_data "payment" 15 = [] :=
  ⟨mock_data_characterization.2.2.1 [] "last_24h" ["timeout"] (by decide),
   mock_data_characterization.2.2.2.1 "guest_7" (by decide) (by decide) (by decide) (by decide),
   mock_data_characterization.2.2.2.2.1 "payment" (by decide),
   mock_data_characterization.2.2.2.2.2.2.1 "payment" 15 (by decide)⟩

/-- C4 (code bug): `create_contextual_report` reads the local `narrative`,
which is only assigned under the executive branch; the repository's own demo
request for an operations summary takes the ops_team path and the call fails
(`UnboundLocalError`, modelled as `none`) instead of returning a report. -/
theorem create_report_narrative_unbound :
    (Reporting.build_request_info
        "Provide an operations summary of system stability over the last 24 hours").user_role =
      some "ops_team" ∧
    Reporting.process_report_request "2023-06-15" "2023-06-15T12:00:00"
      "Provide an operations summary of system stability over the last 24 hours" [] = none := by
  refine ⟨by decide, by decide⟩

/-- C5: for any user id other than the four table keys, `get_user_context`
falls back to the default entry and returns the dev_team context — role
"developer", detailed preference, metrics_graphs visualization. -/
theorem get_user_context_default_fallback (user_id : String)
    (h1 : user_id ≠ "dev_team") (h2 : user_id ≠ "ops_team")
    (h3 : user_id ≠ "business") (h4 : user_id ≠ "executive") :
    Reporting.get_user_context user_id = Reporting.dev_team_context ∧
    Reporting.dev_team_context.role = "developer" ∧
    Reporting.dev_team_context.preferred_detail_level = "detailed" ∧
    Reporting.dev_team_context.preferred_visualization = "metrics_graphs" :=
  ⟨by simp [Reporting.get_user_context, h1, h2, h3, h4], rfl, rfl, rfl⟩

/-- Closed instance of `get_user_context_default_fallback` at an unknown user
id. -/
theorem get_user_context_default_fallback_witness :
    Reporting.get_user_context "intern_42" = Reporting.dev_team_context ∧
    Reporting.dev_team_context.role = "developer" ∧
    Reporting.dev_team_context.preferred_detail_level = "detailed" ∧
    Reporting.dev_team_context.preferred_visualization = "metrics_graphs" :=
  get_user_context_default_fallback "intern_42" (by decide) (by decide) (by decide) (by decide)

/-- C6: `process_analysis_request` returns the detailed checkout-latency
analysis text exactly when the lowercased request contains both "checkout" and
"latency", and the fixed could-not-analyze sentence otherwise. -/
theorem process_analysis_request_characterization (request : String) :
    (DepAnalyzer.process_analysis_request request = DepAnalyzer.analysis_response ↔
      (pyIn "checkout" (pyLower request) && pyIn "latency" (pyLower request)) = true) ∧
    (DepAnalyzer.process_analysis_request request =
        "Could not determine the appropriate analysis path for this request." ↔
      (pyIn "checkout" (pyLower request) && pyIn "latency" (pyLower request)) = false) := by
  have hne : DepAnalyzer.analysis_response ≠
      "Could not determine the appropriate analysis path for this request." := by decide
  cases hc : pyIn "checkout" (pyLower request) && pyIn "latency" (pyLower request) <;>
    simp [DepAnalyzer.process_analysis_request, hc, hne, Ne.symm hne]

/-- `List.range'` with one more element, split at the right end. -/
theorem range'_snoc (s n : Nat) : List.range' s (n + 1) = List.range' s n ++ [s + n] := by
  induction n generalizing s with
  | zero => simp [List.range']
  | succ m ih =>
      rw [List.range'_succ, ih (s + 1), List.range'_succ]
      simp [List.cons_append, Nat.add_assoc, Nat.add_comm 1 m]

/-- One `create_contextual_report` call either leaves the history unchanged
(the non-executive failure path) or appends exactly one record carrying the
next consecutive id. -/
theorem reportStep_spec (today iso : String) (hist : List Reporting.HistEntry)
    (req : Reporting.RequestInfo) :
    Reporting.reportStep today iso hist req = hist ∨
    ∃ e : Reporting.HistEntry, Reporting.reportStep today iso hist req = hist ++ [e] ∧
      e.report_id = hist.length + 1 := by
  by_cases h : req.user_role.getD "dev_team" = "executive"
  · right
    exact ⟨{ report_id := hist.length + 1, timestamp := iso,
             user_role := req.user_role.getD "dev_team", request_info := req },
           by simp [Reporting.reportStep, Reporting.create_contextual_report, h], rfl⟩
  · left
    simp [Reporting.reportStep, Reporting.create_contextual_report, h]

/-- Folding report requests preserves the consecutive-ids invariant. -/
theorem runReports_ids_aux (today iso : String) (reqs : List Reporting.RequestInfo) :
    ∀ hist : List Reporting.HistEntry,
      hist.map Reporting.HistEntry.report_id = List.range' 1 hist.length →
      (List.foldl (Reporting.reportStep today iso) hist reqs).map Reporting.HistEntry.report_id =
        List.range' 1 (List.foldl (Reporting.reportStep today iso) hist reqs).length := by
  induction reqs with
  | nil => intro hist h; simpa using h
  | cons r rs ih =>
      intro hist h
      rw [List.foldl_cons]
      apply ih
      rcases reportStep_spec today iso hist r with heq | ⟨e, heq, hid⟩
      · rw [heq]; exact h
      · rw [heq, List.map_append, h, List.length_append]
        simp [hid, range'_snoc, Nat.add_comm]

/-- Folding report requests only ever extends the history. -/
theorem runReports_extend_aux (today iso : String) :
    ∀ (reqs : List Reporting.RequestInfo) (hist : List Reporting.HistEntry),
      ∃ rest, List.foldl (Reporting.reportStep today iso) hist reqs = hist ++ rest := by
  intro reqs
  induction reqs with
  | nil => intro hist; exact ⟨[], by simp⟩
  | cons r rs ih =>
      intro hist
      obtain ⟨rest, hr⟩ := ih (Reporting.reportStep today iso hist r)
      rcases reportStep_spec today iso hist r with heq | ⟨e, heq, _⟩
      · exact ⟨rest, by rw [List.foldl_cons, hr, heq]⟩
      · exact ⟨e :: rest, by rw [List.foldl_cons, hr, heq, List.append_assoc]; rfl⟩

/-- C9: every record appended by `create_contextual_report` carries
`report_id` equal to the history length right after the append (and failed
calls append nothing); hence after any sequence of calls the stored ids are
exactly 1, 2, ..., n in insertion order, and `report_history` only ever
grows. -/
theorem report_history_ids_consecutive (today iso : String)
    (reqs : List Reporting.RequestInfo) :
    ((Reporting.runReports today iso reqs).map Reporting.HistEntry.report_id =
      List.range' 1 (Reporting.runReports today iso reqs).length) ∧
    (∀ hist req, Reporting.reportStep today iso hist req = hist ∨
      ∃ e : Reporting.HistEntry, Reporting.reportStep today iso hist req = hist ++ [e] ∧
        e.report_id = hist.length + 1) ∧
    (∀ more, ∃ rest, Reporting.runReports today iso (reqs ++ more) =
      Reporting.runReports today iso reqs ++ rest) := by
  refine ⟨runReports_ids_aux today iso reqs [] (by simp),
    fun hist req => reportStep_spec today iso hist req, fun more => ?_⟩
  unfold Reporting.runReports
  rw [List.foldl_append]
  exact runReports_extend_aux today iso more _
